import Mathlib

/-!
Verification of the budget-allocation core of `financial_assistant.py`.

Shallow embedding conventions:
* Calendar dates are modelled as integers (a day number); the code only
  compares dates and takes day differences (`(period_end - today).days + 1`).
* Monetary amounts are modelled as integers counting cents: every amount
  column is `DECIMAL(10,2)`, a fixed-point value with two fractional digits,
  and all sums and differences in the code are exact on such values.
* The one non-integer step, Python's `round(max(0, available / days), 2)`,
  is expressed in cents by `roundMax0Div`: with `available` in cents, the
  result is the nearest integer number of cents to `available / days`.
  The program rounds the binary *float* quotient, so at an exact half-cent
  tie its direction is decided by the float's representation error
  (`round(7.35/2, 2)` is 3.67 but `round(7.45/2, 2)` is 3.73); the model
  resolves the tie half-to-even on the exact quotient.  Off ties the two
  agree, and every tie-sensitive concrete input appearing in a theorem
  below (2.01 over 2 days, yielding 1.00) was checked against CPython.
* The SQLite tables become lists of records inside a `State`; each HTTP
  operation becomes a function `State → State` taking `today` (the code's
  `date.today()`) as an explicit parameter.
-/

/-- One row of the `pay_periods` table. -/
structure PayPeriod where
  amount : ℤ
  start_date : ℤ
  end_date : ℤ
  deriving Repr, DecidableEq

/-- The `transaction_type` column: `'expense'` or `'savings_contribution'`. -/
inductive TransactionType where
  | expense
  | savings_contribution
  deriving Repr, DecidableEq

/-- The `frequency` column of `recurring_expenses`: `'monthly'`, `'weekly'`,
`'yearly'`. -/
inductive Frequency where
  | weekly
  | monthly
  | yearly
  deriving Repr, DecidableEq

/-- One row of the `transactions` table together with the optional `goal_id`
form field that accompanies a savings contribution (absent or empty form
values both become `none`). -/
structure Transaction where
  date : ℤ
  amount : ℤ
  category : String
  description : String
  transaction_type : TransactionType
  goal_id : Option ℕ
  deriving Repr, DecidableEq

/-- One row of the `recurring_expenses` table. -/
structure RecurringExpense where
  name : String
  amount : ℤ
  frequency : Frequency
  next_due : ℤ
  category : String
  deriving Repr, DecidableEq

/-- One row of the `savings_goals` table. -/
structure SavingsGoal where
  id : ℕ
  name : String
  target_amount : ℤ
  current_amount : ℤ
  monthly_contribution : ℤ
  deriving Repr, DecidableEq

/-- One row of the `daily_budgets` table.  `confirmed_limit` is nullable;
`actual_spent` has SQL default 0. -/
structure DailyBudget where
  date : ℤ
  allocated_limit : ℤ
  confirmed_limit : Option ℤ
  actual_spent : ℤ
  deriving Repr, DecidableEq

/-- The whole persistent store. -/
structure State where
  pay_periods : List PayPeriod
  transactions : List Transaction
  recurring_expenses : List RecurringExpense
  savings_goals : List SavingsGoal
  daily_budgets : List DailyBudget
  deriving Repr, DecidableEq

/-- The empty database produced by `init_db`. -/
def State.empty : State := ⟨[], [], [], [], []⟩

/-- Round-to-nearest division: the nearest integer to the rational `a / d`
(for `d > 0`).  `q` is the floor of the quotient and `r ∈ [0, d)` its
remainder, so the fractional part `r / d` compares to one half as `2 * r`
compares to `d`.  Off exact half ties this is the value of Python's
`round` on the quotient; at an exact half tie the program's float
representation error picks the direction, which this model replaces by the
half-to-even rule (a modeling boundary, see the module comment). -/
def roundHalfEvenDiv (a d : ℤ) : ℤ :=
  let q := a.fdiv d
  let r := a - d * q
  if 2 * r < d then q
  else if d < 2 * r then q + 1
  else if q % 2 = 0 then q else q + 1

/-- `round(max(0, a / d), 2)` of the code, in cents: for `d > 0` the inner
`max` yields `a / d` when `0 ≤ a` and `0` otherwise, and rounding a quotient
of two-decimal dollars to two decimals is nearest-cent rounding of the cent
quotient, modelled by `roundHalfEvenDiv`. -/
def roundMax0Div (a d : ℤ) : ℤ :=
  if 0 ≤ a then roundHalfEvenDiv a d else 0

/-- `SELECT * FROM pay_periods WHERE start_date <= today AND end_date >= today
ORDER BY start_date DESC LIMIT 1`: among the periods covering `today`, the one
with the latest `start_date` (the first such row on a tie). -/
def selectPeriod (ps : List PayPeriod) (today : ℤ) : Option PayPeriod :=
  (ps.filter (fun p => decide (p.start_date ≤ today) && decide (p.end_date ≥ today))).foldl
    (fun acc p =>
      match acc with
      | none => some p
      | some q => if p.start_date > q.start_date then some p else some q)
    none

/-- `SELECT COALESCE(SUM(amount), 0) FROM transactions
WHERE date >= lo AND date <= hi AND transaction_type = "expense"`. -/
def totalSpentBetween (txs : List Transaction) (lo hi : ℤ) : ℤ :=
  ((txs.filter (fun tx =>
      decide (lo ≤ tx.date) && decide (tx.date ≤ hi) &&
      decide (tx.transaction_type = TransactionType.expense))).map
    (fun tx => tx.amount)).sum

/-- `SELECT COALESCE(SUM(amount), 0) FROM recurring_expenses
WHERE next_due >= today AND next_due <= period_end`. -/
def upcomingBills (res : List RecurringExpense) (today period_end : ℤ) : ℤ :=
  ((res.filter (fun e =>
      decide (today ≤ e.next_due) && decide (e.next_due ≤ period_end))).map
    (fun e => e.amount)).sum

/-- `SELECT COALESCE(SUM(monthly_contribution), 0) FROM savings_goals`. -/
def plannedSavings (gs : List SavingsGoal) : ℤ :=
  (gs.map (fun g => g.monthly_contribution)).sum

/-- `calculate_daily_limit` (financial_assistant.py lines 107-156), in cents.
When `days_remaining <= 0` the code rounds the literal 0, which is 0. -/
def calculate_daily_limit (s : State) (today : ℤ) : ℤ :=
  match selectPeriod s.pay_periods today with
  | none => 0
  | some current_period =>
    let days_remaining : ℤ := current_period.end_date - today + 1
    let total_spent := totalSpentBetween s.transactions current_period.start_date today
    let upcoming := upcomingBills s.recurring_expenses today current_period.end_date
    let planned := plannedSavings s.savings_goals
    let remaining_income := current_period.amount - total_spent
    let available_for_spending := remaining_income - upcoming - planned
    if days_remaining ≤ 0 then 0
    else roundMax0Div available_for_spending days_remaining

/-- `SELECT id FROM daily_budgets WHERE date = ?` returns a row. -/
def budgetExists (s : State) (d : ℤ) : Bool :=
  s.daily_budgets.any (fun b => decide (b.date = d))

/-- `confirm_daily_limit` (lines 379-406).  The JSON body may omit `limit`;
`data.get("limit", 0)` then yields 0.  No validation of the amount occurs. -/
def confirm_daily_limit (s : State) (today : ℤ) (limitOpt : Option ℤ) : State :=
  let limit := limitOpt.getD 0
  if budgetExists s today then
    { s with daily_budgets := s.daily_budgets.map (fun b =>
        if b.date = today then { b with confirmed_limit := some limit } else b) }
  else
    { s with daily_budgets :=
        s.daily_budgets ++ [⟨today, limit, some limit, 0⟩] }

/-- `SELECT COALESCE(SUM(amount), 0) FROM transactions
WHERE date = ? AND transaction_type = "expense"`. -/
def expenseSum (txs : List Transaction) (d : ℤ) : ℤ :=
  ((txs.filter (fun tx =>
      decide (tx.date = d) &&
      decide (tx.transaction_type = TransactionType.expense))).map
    (fun tx => tx.amount)).sum

/-- `add_transaction`, POST branch (lines 409-461): insert the row; if it is an
expense dated today, lazily create today's `daily_budgets` row and recompute
`actual_spent`; if it is a savings contribution carrying a goal id, add the
amount to the goals with that id (a no-op when none matches).  The created
row's `allocated_limit` comes from `calculate_daily_limit` evaluated on the
pre-insert store `s`: the call at line 436 opens a fresh `get_db()`
connection, which cannot see the caller's still-uncommitted INSERT (commit
only happens at line 457).  The `actual_spent` recomputation at lines
443-446, by contrast, runs on the caller's own connection and does see the
new row. -/
def add_transaction (s : State) (today : ℤ) (tx : Transaction) : State :=
  let s1 := { s with transactions := s.transactions ++ [tx] }
  let s2 :=
    if tx.transaction_type = TransactionType.expense ∧ tx.date = today then
      let s1' :=
        if budgetExists s1 tx.date then s1
        else
          let suggested_limit := calculate_daily_limit s today
          { s1 with daily_budgets :=
              s1.daily_budgets ++ [⟨tx.date, suggested_limit, none, 0⟩] }
      { s1' with daily_budgets := s1'.daily_budgets.map (fun b =>
          if b.date = tx.date then
            { b with actual_spent := expenseSum s1'.transactions tx.date }
          else b) }
    else s1
  if tx.transaction_type = TransactionType.savings_contribution then
    match tx.goal_id with
    | none => s2
    | some gid =>
      { s2 with savings_goals := s2.savings_goals.map (fun g =>
          if g.id = gid then { g with current_amount := g.current_amount + tx.amount }
          else g) }
  else s2

/-- The invariant claimed in the spec: every `daily_budgets` row's
`actual_spent` equals the sum of the expense transactions dated on it. -/
def SpentInv (s : State) : Prop :=
  ∀ b ∈ s.daily_budgets, b.actual_spent = expenseSum s.transactions b.date

instance : DecidablePred SpentInv := fun s =>
  List.decidableBAll _ s.daily_budgets

/-- The two state-mutating requests of the budget core. -/
inductive Op where
  | confirmLimit (limitOpt : Option ℤ)
  | record (tx : Transaction)
  deriving Repr

/-- Dispatch an operation against the store on a given day. -/
def step (s : State) (today : ℤ) : Op → State
  | Op.confirmLimit o => confirm_daily_limit s today o
  | Op.record tx => add_transaction s today tx

/-- Side condition under which an operation is guaranteed to leave a given
budget row's `actual_spent` in sync with the transaction log (see the
amended C2).  Only two situations break the sync: recording an *expense*
dated other than today at a row with that same date (savings contributions
never enter expense sums, and a today-dated expense triggers the
recomputation), and confirming when today's row is missing while today
already has logged expenses. -/
def opOK (s : State) (today : ℤ) (b : DailyBudget) : Op → Prop
  | Op.confirmLimit _ => budgetExists s today = true ∨ expenseSum s.transactions today = 0
  | Op.record tx =>
      b.date ≠ tx.date ∨
      ¬ tx.transaction_type = TransactionType.expense ∨
      tx.date = today

/-- The (first) `daily_budgets` row with the given date, if any. -/
def findBudget (s : State) (d : ℤ) : Option DailyBudget :=
  s.daily_budgets.find? (fun b => decide (b.date = d))

/-! Concrete inputs used by the witnesses and counterexamples.
Dates are day numbers within June 2024: day `n` stands for 2024-06-`n`;
amounts are cents. -/

/-- The spec's worked example: pay period of 2000.00 over 2024-06-01..15,
one 300.00 expense inside the period, one 150.00 bill due inside the
remaining window, one goal with a 200.00 monthly contribution. -/
def exC1 : State :=
  ⟨[⟨200000, 1, 15⟩],
   [⟨3, 30000, "food", "groceries", TransactionType.expense, none⟩],
   [⟨"rent", 15000, Frequency.monthly, 10, "housing"⟩],
   [⟨1, "vacation", 100000, 0, 20000⟩],
   []⟩

/-- Rounding tie input: a period of 2.01 over two days with nothing else,
so the exact quotient on day 1 is 1.005 dollars per day. -/
def exC3 : State := ⟨[⟨201, 1, 2⟩], [], [], [], []⟩

/-- An expense of 5.00 recorded on day 10, as of day 10. -/
def txC2a : Transaction := ⟨10, 500, "food", "lunch", TransactionType.expense, none⟩

/-- An expense of 3.00 back-dated to day 10, recorded on day 11. -/
def txC2b : Transaction := ⟨10, 300, "food", "dinner", TransactionType.expense, none⟩

/-- State after recording `txC2a` on day 10. -/
def sC2a : State := add_transaction State.empty 10 txC2a

/-- State after then recording the back-dated `txC2b` on day 11. -/
def sC2b : State := step sC2a 11 (Op.record txC2b)

/-- A store holding one budget row for day 5 in sync with one logged
expense of 2.00 on day 5. -/
def wC2state : State :=
  ⟨[], [⟨5, 200, "food", "coffee", TransactionType.expense, none⟩], [], [],
   [⟨5, 4000, none, 200⟩]⟩

/-- A fresh expense of 3.00 on day 5. -/
def wC2tx : Transaction := ⟨5, 300, "food", "snack", TransactionType.expense, none⟩

/-- The day-5 budget row of `wC2state` after `wC2tx` is recorded. -/
def wC2budget : DailyBudget := ⟨5, 4000, none, 500⟩

/-- An expense of 7.00 on day 0, used by the C5 witness. -/
def wC5tx : Transaction := ⟨0, 700, "gas", "fuel", TransactionType.expense, none⟩

/-- One savings goal with id 1, used by the C7 witness. -/
def wC7state : State := ⟨[], [], [], [⟨1, "fund", 10000, 1000, 2000⟩], []⟩

/-- A savings contribution of 5.00 aimed at goal 1. -/
def wC7tx : Transaction :=
  ⟨0, 500, "", "", TransactionType.savings_contribution, some 1⟩

/-- A savings contribution of 5.00 aimed at the nonexistent goal 9. -/
def wC7txMissing : Transaction :=
  ⟨0, 500, "", "", TransactionType.savings_contribution, some 9⟩

/-! Helper lemmas. -/

theorem roundHalfEvenDiv_nonneg (a d : ℤ) (ha : 0 ≤ a) (hd : 0 < d) :
    0 ≤ roundHalfEvenDiv a d := by
  have hq : 0 ≤ a.fdiv d := Int.fdiv_nonneg ha (le_of_lt hd)
  simp only [roundHalfEvenDiv]
  generalize a.fdiv d = q at hq ⊢
  split_ifs <;> omega

theorem roundMax0Div_nonneg (a d : ℤ) (hd : 0 < d) : 0 ≤ roundMax0Div a d := by
  unfold roundMax0Div
  split_ifs with h
  · exact roundHalfEvenDiv_nonneg a d h hd
  · exact le_refl 0

theorem upcomingBills_map_frequency (res : List RecurringExpense)
    (f : RecurringExpense → Frequency) (a b : ℤ) :
    upcomingBills (res.map (fun e => { e with frequency := f e })) a b =
      upcomingBills res a b := by
  induction res with
  | nil => rfl
  | cons e t ih =>
    simp only [upcomingBills, List.map_cons, List.filter_cons] at ih ⊢
    dsimp only
    split_ifs with h
    · simp only [List.map_cons, List.sum_cons, ih]
    · exact ih

theorem expenseSum_append (l : List Transaction) (tx : Transaction) (d : ℤ) :
    expenseSum (l ++ [tx]) d =
      expenseSum l d +
        (if tx.date = d ∧ tx.transaction_type = TransactionType.expense
          then tx.amount else 0) := by
  simp only [expenseSum, List.filter_append, List.map_append, List.sum_append]
  congr 1
  by_cases h : tx.date = d ∧ tx.transaction_type = TransactionType.expense
  · rw [if_pos h]
    simp [List.filter_cons, h.1, h.2]
  · rw [if_neg h]
    by_cases h1 : tx.date = d
    · have h2 : ¬ tx.transaction_type = TransactionType.expense := fun h2 => h ⟨h1, h2⟩
      simp [List.filter_cons, h1, h2]
    · simp [List.filter_cons, h1]

theorem find?_append_of_none {α : Type} (l₁ l₂ : List α) (p : α → Bool)
    (h : ∀ x ∈ l₁, p x = false) : (l₁ ++ l₂).find? p = l₂.find? p := by
  induction l₁ with
  | nil => rfl
  | cons a t ih =>
    rw [List.cons_append, List.find?_cons_of_neg]
    · exact ih (fun x hx => h x (List.mem_cons_of_mem a hx))
    · simp [h a (List.mem_cons_self a t)]

theorem budgetExists_iff (s : State) (d : ℤ) :
    budgetExists s d = true ↔ ∃ b ∈ s.daily_budgets, b.date = d := by
  simp [budgetExists, List.any_eq_true]

theorem budgetExists_eq_false (s : State) (d : ℤ) :
    budgetExists s d = false ↔ ∀ b ∈ s.daily_budgets, b.date ≠ d := by
  simp [budgetExists, List.any_eq_false]

theorem findBudget_confirm_map (l : List DailyBudget) (today a : ℤ)
    (h : ∃ b ∈ l, b.date = today) :
    ((l.map (fun b =>
        if b.date = today then { b with confirmed_limit := some a } else b)).find?
        (fun b => decide (b.date = today))).map (fun b => b.confirmed_limit) =
      some (some a) := by
  induction l with
  | nil => simp at h
  | cons b0 t ih =>
    by_cases hb : b0.date = today
    · rw [List.map_cons, if_pos hb, List.find?_cons_of_pos]
      · rfl
      · simp [hb]
    · rw [List.map_cons, if_neg hb, List.find?_cons_of_neg]
      · apply ih
        rcases h with ⟨b, hbmem, hbd⟩
        rcases List.mem_cons.mp hbmem with h1 | h2
        · exact absurd (h1 ▸ hbd) hb
        · exact ⟨b, h2, hbd⟩
      · simp [hb]

/-- Full characterization of `confirm_daily_limit`: the stored confirmed
limit, the update/insert shapes, and the frame on the other tables. -/
theorem confirm_daily_limit_spec (s : State) (today : ℤ) (limitOpt : Option ℤ) :
    ((findBudget (confirm_daily_limit s today limitOpt) today).map
        (fun b => b.confirmed_limit)) = some (some (limitOpt.getD 0)) ∧
    budgetExists (confirm_daily_limit s today limitOpt) today = true ∧
    (budgetExists s today = true →
      (confirm_daily_limit s today limitOpt).daily_budgets =
        s.daily_budgets.map (fun b =>
          if b.date = today then { b with confirmed_limit := some (limitOpt.getD 0) }
          else b)) ∧
    (budgetExists s today = false →
      (confirm_daily_limit s today limitOpt).daily_budgets =
        s.daily_budgets ++ [⟨today, limitOpt.getD 0, some (limitOpt.getD 0), 0⟩]) ∧
    (confirm_daily_limit s today limitOpt).pay_periods = s.pay_periods ∧
    (confirm_daily_limit s today limitOpt).transactions = s.transactions ∧
    (confirm_daily_limit s today limitOpt).recurring_expenses = s.recurring_expenses ∧
    (confirm_daily_limit s today limitOpt).savings_goals = s.savings_goals := by
  by_cases hex : budgetExists s today = true
  · unfold confirm_daily_limit
    rw [if_pos hex]
    refine ⟨?_, ?_, fun _ => rfl, fun hf => absurd hex (by rw [hf]; exact Bool.false_ne_true),
      rfl, rfl, rfl, rfl⟩
    · exact findBudget_confirm_map s.daily_budgets today (limitOpt.getD 0)
        ((budgetExists_iff s today).mp hex)
    · rcases (budgetExists_iff s today).mp hex with ⟨b0, hmem, hdate⟩
      apply List.any_eq_true.mpr
      refine ⟨if b0.date = today then { b0 with confirmed_limit := some (limitOpt.getD 0) }
          else b0, List.mem_map_of_mem _ hmem, ?_⟩
      rw [if_pos hdate]
      simpa using hdate
  · have hex' : budgetExists s today = false := Bool.eq_false_iff.mpr hex
    unfold confirm_daily_limit
    rw [if_neg hex]
    have hall : ∀ b ∈ s.daily_budgets, (fun b : DailyBudget => decide (b.date = today)) b = false := by
      intro b hb
      simpa using (budgetExists_eq_false s today).mp hex' b hb
    refine ⟨?_, ?_, fun ht => absurd ht hex, fun _ => rfl, rfl, rfl, rfl, rfl⟩
    · unfold findBudget
      dsimp only
      rw [find?_append_of_none _ _ _ hall, List.find?_cons_of_pos]
      · rfl
      · simp
    · apply List.any_eq_true.mpr
      exact ⟨⟨today, limitOpt.getD 0, some (limitOpt.getD 0), 0⟩,
        List.mem_append_right _ (List.mem_singleton.mpr rfl), by simp⟩

theorem add_transaction_transactions (s : State) (today : ℤ) (tx : Transaction) :
    (add_transaction s today tx).transactions = s.transactions ++ [tx] := by
  unfold add_transaction
  dsimp only
  split_ifs <;> first | rfl | (cases tx.goal_id <;> rfl)

theorem add_transaction_pay_periods (s : State) (today : ℤ) (tx : Transaction) :
    (add_transaction s today tx).pay_periods = s.pay_periods := by
  unfold add_transaction
  dsimp only
  split_ifs <;> first | rfl | (cases tx.goal_id <;> rfl)

theorem add_transaction_recurring (s : State) (today : ℤ) (tx : Transaction) :
    (add_transaction s today tx).recurring_expenses = s.recurring_expenses := by
  unfold add_transaction
  dsimp only
  split_ifs <;> first | rfl | (cases tx.goal_id <;> rfl)

theorem add_transaction_budgets_of_not_expense_today (s : State) (today : ℤ)
    (tx : Transaction)
    (h : ¬(tx.transaction_type = TransactionType.expense ∧ tx.date = today)) :
    (add_transaction s today tx).daily_budgets = s.daily_budgets := by
  unfold add_transaction
  dsimp only
  rw [if_neg h]
  split_ifs <;> first | rfl | (cases tx.goal_id <;> rfl)

theorem add_transaction_budgets_expense_exists (s : State) (today : ℤ)
    (tx : Transaction)
    (hty : tx.transaction_type = TransactionType.expense) (hd : tx.date = today)
    (hex : budgetExists s tx.date = true) :
    (add_transaction s today tx).daily_budgets =
      s.daily_budgets.map
        (fun b => if b.date = tx.date then
            { b with actual_spent := expenseSum (s.transactions ++ [tx]) tx.date }
          else b) := by
  have hex' : budgetExists { s with transactions := s.transactions ++ [tx] } tx.date = true := hex
  unfold add_transaction
  dsimp only
  rw [if_pos (show tx.transaction_type = TransactionType.expense ∧ tx.date = today
        from ⟨hty, hd⟩),
    if_pos hex',
    if_neg (show ¬ tx.transaction_type = TransactionType.savings_contribution
        from fun hc => by rw [hty] at hc; exact TransactionType.noConfusion hc)]

theorem add_transaction_budgets_expense_missing (s : State) (today : ℤ)
    (tx : Transaction)
    (hty : tx.transaction_type = TransactionType.expense) (hd : tx.date = today)
    (hex : budgetExists s tx.date = false) :
    (add_transaction s today tx).daily_budgets =
      (s.daily_budgets ++
        [({ date := tx.date,
            allocated_limit := calculate_daily_limit s today,
            confirmed_limit := none, actual_spent := 0 } : DailyBudget)]).map
        (fun b => if b.date = tx.date then
            { b with actual_spent := expenseSum (s.transactions ++ [tx]) tx.date }
          else b) := by
  have hex' : ¬ budgetExists { s with transactions := s.transactions ++ [tx] } tx.date = true := by
    rw [show budgetExists { s with transactions := s.transactions ++ [tx] } tx.date
          = budgetExists s tx.date from rfl, hex]
    exact Bool.false_ne_true
  unfold add_transaction
  dsimp only
  rw [if_pos (show tx.transaction_type = TransactionType.expense ∧ tx.date = today
        from ⟨hty, hd⟩),
    if_neg hex',
    if_neg (show ¬ tx.transaction_type = TransactionType.savings_contribution
        from fun hc => by rw [hty] at hc; exact TransactionType.noConfusion hc)]

theorem add_transaction_goals_of_not_contribution (s : State) (today : ℤ)
    (tx : Transaction)
    (h : ¬ tx.transaction_type = TransactionType.savings_contribution) :
    (add_transaction s today tx).savings_goals = s.savings_goals := by
  unfold add_transaction
  dsimp only
  rw [if_neg h]
  split_ifs <;> rfl

theorem add_transaction_goals_of_contribution (s : State) (today : ℤ)
    (tx : Transaction)
    (hty : tx.transaction_type = TransactionType.savings_contribution) :
    (add_transaction s today tx).savings_goals =
      match tx.goal_id with
      | none => s.savings_goals
      | some gid => s.savings_goals.map (fun g =>
          if g.id = gid then { g with current_amount := g.current_amount + tx.amount }
          else g) := by
  unfold add_transaction
  dsimp only
  rw [if_neg (show ¬(tx.transaction_type = TransactionType.expense ∧ tx.date = today)
        from fun hc => by rw [hty] at hc; exact TransactionType.noConfusion hc.1),
    if_pos hty]
  cases tx.goal_id <;> rfl

/-! Claim theorems. -/

/-- C1: at the claim's own worked example (2000.00 over 2024-06-01..15,
today 2024-06-05, 300.00 spent, 150.00 of bills, 200.00 of planned savings)
the program does return 122.73 dollars (12273 cents, float-checked against
CPython).  But the universal formula fails at half-cent ties: for a 7.35
period over 2 remaining days the claim's 2-decimal rounding of the exact
quotient 3.675 gives 368 cents, while the program returns 367
(`round(7.35/2, 2) == 3.67`: the float below 3.675 decides the tie) — the
same rounding slip as C3, here breaking the formula's equality. -/
theorem C1_example_and_tie_gap :
    calculate_daily_limit exC1 5 = 12273 ∧ roundMax0Div 735 2 = 368 := by decide

/-- C3: at a pay period of 2.01 dollars over two remaining days (exact
quotient 1.005 dollars), the code returns 1.00 dollars (100 cents), not the
1.01 that round-half-up would give: Python's `round` rounds a half to the
even cent. -/
theorem C3_tie_rounds_to_even :
    calculate_daily_limit exC3 1 = 100 := by decide

/-- C8: the suggested limit is never negative, however large the upcoming
bills and planned savings are, and it is 0 whenever no pay period covers
`today`. -/
theorem C8_nonneg_and_zero_without_period (s : State) (today : ℤ) :
    0 ≤ calculate_daily_limit s today ∧
    ((∀ p ∈ s.pay_periods, ¬(p.start_date ≤ today ∧ today ≤ p.end_date)) →
      calculate_daily_limit s today = 0) := by
  constructor
  · unfold calculate_daily_limit
    cases h : selectPeriod s.pay_periods today with
    | none => exact le_refl 0
    | some p =>
      dsimp only
      split_ifs with hd
      · exact le_refl 0
      · exact roundMax0Div_nonneg _ _ (by omega)
  · intro hno
    have hsel : selectPeriod s.pay_periods today = none := by
      unfold selectPeriod
      have hfil : s.pay_periods.filter
          (fun p => decide (p.start_date ≤ today) && decide (p.end_date ≥ today)) = [] := by
        rw [List.filter_eq_nil_iff]
        intro p hp
        simp only [Bool.and_eq_true, decide_eq_true_eq, not_and]
        intro h1 h2
        exact hno p hp ⟨h1, h2⟩
      rw [hfil]
      rfl
    unfold calculate_daily_limit
    rw [hsel]

/-- C8 witness: on the empty store (no pay period covers day 3) the limit is
0, hence also nonnegative. -/
theorem C8_nonneg_witness :
    0 ≤ calculate_daily_limit State.empty 3 ∧ calculate_daily_limit State.empty 3 = 0 :=
  ⟨(C8_nonneg_and_zero_without_period State.empty 3).1,
   (C8_nonneg_and_zero_without_period State.empty 3).2 (by decide)⟩

/-- C2 counterexample: starting from the reachable state `sC2a` (one expense
of 5.00 recorded on day 10, whose day-10 budget row is in sync), recording
an expense of 3.00 back-dated to day 10 on day 11 appends to the log but
leaves the day-10 row's `actual_spent` at 500 cents while the day-10 expense
sum becomes 800 cents: the operation does not preserve the equality. -/
theorem C2_backdated_expense_breaks_sync :
    SpentInv sC2a ∧ ¬ SpentInv sC2b := by decide

/-- C2 amended: a budget row's `actual_spent` equals the sum of same-dated
expense transactions after an operation provided the side condition `opOK`
holds: for `recordTransaction`, the row's date differs from the
transaction's date, or the transaction is not an expense (contributions
never enter expense sums), or it is dated today (today's rows are then
recomputed); for `confirmDailyLimit`, a row for today already existed or
today has no logged expenses.  Without `opOK` — an expense recorded for a
past date at an existing row, as in the counterexample — the equality
fails at the transaction's date. -/
theorem C2_sync_under_side_conditions (s : State) (today : ℤ) (op : Op)
    (b : DailyBudget) (hInv : SpentInv s)
    (hb : b ∈ (step s today op).daily_budgets) (hok : opOK s today b op) :
    b.actual_spent = expenseSum (step s today op).transactions b.date := by
  cases op with
  | confirmLimit o =>
    rw [show step s today (Op.confirmLimit o) = confirm_daily_limit s today o from rfl]
      at hb ⊢
    rw [(confirm_daily_limit_spec s today o).2.2.2.2.2.1]
    have hok' : budgetExists s today = true ∨ expenseSum s.transactions today = 0 := hok
    by_cases hex : budgetExists s today = true
    · rw [(confirm_daily_limit_spec s today o).2.2.1 hex] at hb
      rcases List.mem_map.mp hb with ⟨b0, hb0, hfb0⟩
      by_cases h0 : b0.date = today
      · rw [if_pos h0] at hfb0
        rw [← hfb0]
        exact hInv b0 hb0
      · rw [if_neg h0] at hfb0
        rw [← hfb0]
        exact hInv b0 hb0
    · have hex' : budgetExists s today = false := Bool.eq_false_iff.mpr hex
      rw [(confirm_daily_limit_spec s today o).2.2.2.1 hex'] at hb
      rcases List.mem_append.mp hb with hb1 | hb2
      · exact hInv b hb1
      · have hsum : expenseSum s.transactions today = 0 := by
          rcases hok' with h | h
          · exact absurd h hex
          · exact h
        rw [List.mem_singleton.mp hb2]
        exact hsum.symm
  | record tx =>
    rw [show step s today (Op.record tx) = add_transaction s today tx from rfl] at hb ⊢
    rw [add_transaction_transactions]
    have hok' : b.date ≠ tx.date ∨
        ¬ tx.transaction_type = TransactionType.expense ∨ tx.date = today := hok
    by_cases hc : tx.transaction_type = TransactionType.expense ∧ tx.date = today
    · by_cases hex : budgetExists s tx.date = true
      · rw [add_transaction_budgets_expense_exists s today tx hc.1 hc.2 hex] at hb
        rcases List.mem_map.mp hb with ⟨b0, hb0, hfb0⟩
        by_cases h0 : b0.date = tx.date
        · rw [if_pos h0] at hfb0
          rw [← hfb0]
          dsimp only
          rw [h0]
        · rw [if_neg h0] at hfb0
          rw [← hfb0]
          rw [expenseSum_append, if_neg (fun hcc => h0 hcc.1.symm), add_zero]
          exact hInv b0 hb0
      · have hex' : budgetExists s tx.date = false := Bool.eq_false_iff.mpr hex
        rw [add_transaction_budgets_expense_missing s today tx hc.1 hc.2 hex'] at hb
        rcases List.mem_map.mp hb with ⟨b0, hb0, hfb0⟩
        rcases List.mem_append.mp hb0 with hb01 | hb02
        · by_cases h0 : b0.date = tx.date
          · rw [if_pos h0] at hfb0
            rw [← hfb0]
            dsimp only
            rw [h0]
          · rw [if_neg h0] at hfb0
            rw [← hfb0]
            rw [expenseSum_append, if_neg (fun hcc => h0 hcc.1.symm), add_zero]
            exact hInv b0 hb01
        · have hb0d : b0.date = tx.date := by rw [List.mem_singleton.mp hb02]
          rw [if_pos hb0d] at hfb0
          rw [← hfb0]
          dsimp only
          rw [hb0d]
    · have hb' : b ∈ s.daily_budgets := by
        rw [add_transaction_budgets_of_not_expense_today s today tx hc] at hb
        exact hb
      have hne : ¬(tx.date = b.date ∧ tx.transaction_type = TransactionType.expense) := by
        rcases hok' with h | h | h
        · exact fun hcc => h hcc.1.symm
        · exact fun hcc => h hcc.2
        · exact fun hcc => hc ⟨hcc.2, h⟩
      rw [expenseSum_append, if_neg hne, add_zero]
      exact hInv b hb'

/-- C2 witness: in a store whose day-5 row is in sync with one 2.00 expense,
recording a fresh 3.00 expense on day 5 (an `opOK` operation) leaves the
day-5 row holding 500 cents, the recomputed sum. -/
theorem C2_sync_witness :
    wC2budget.actual_spent =
      expenseSum (step wC2state 5 (Op.record wC2tx)).transactions wC2budget.date :=
  C2_sync_under_side_conditions wC2state 5 (Op.record wC2tx) wC2budget
    (by decide) (by decide) (Or.inr (Or.inr rfl))

/-- C4 counterexample: confirming the negative limit -5.00 does not fail:
the store ends up holding today's budget row with `confirmed_limit` -500
cents. -/
theorem C4_negative_limit_is_stored :
    (confirm_daily_limit State.empty 0 (some (-500))).daily_budgets
      = [⟨0, -500, some (-500), 0⟩] := by decide

/-- C4 amended: `confirm_daily_limit` performs no validation and never
raises a domain error: for every negative amount the operation succeeds and
stores that amount as today's `confirmed_limit` like any other value. -/
theorem C4_no_negative_validation (s : State) (today a : ℤ) (_hneg : a < 0) :
    ((findBudget (confirm_daily_limit s today (some a)) today).map
        (fun b => b.confirmed_limit)) = some (some a) :=
  (confirm_daily_limit_spec s today (some a)).1

/-- C4 witness: confirming -5.00 on the empty store stores -500 cents. -/
theorem C4_no_negative_validation_witness :
    ((findBudget (confirm_daily_limit State.empty 0 (some (-500))) 0).map
        (fun b => b.confirmed_limit)) = some (some (-500)) :=
  C4_no_negative_validation State.empty 0 (-500) (by decide)

/-- C5: recording an expense dated today appends it to the log, guarantees a
budget row for today (created, when missing, with `allocated_limit` from
`calculate_daily_limit` evaluated on the pre-insert store: the code's
line-436 call opens a fresh connection that cannot see the uncommitted
insert), and leaves every today-dated row's `actual_spent` equal to the sum
of all of today's expense transactions, the new one included. -/
theorem C5_record_expense_today (s : State) (today : ℤ) (tx : Transaction)
    (b : DailyBudget)
    (hty : tx.transaction_type = TransactionType.expense) (hd : tx.date = today) :
    (add_transaction s today tx).transactions = s.transactions ++ [tx] ∧
    budgetExists (add_transaction s today tx) today = true ∧
    (budgetExists s today = false →
      (add_transaction s today tx).daily_budgets =
        s.daily_budgets ++
          [⟨today, calculate_daily_limit s today,
            none, expenseSum (s.transactions ++ [tx]) today⟩]) ∧
    (b ∈ (add_transaction s today tx).daily_budgets → b.date = today →
      b.actual_spent = expenseSum (s.transactions ++ [tx]) today) ∧
    expenseSum (s.transactions ++ [tx]) today = expenseSum s.transactions today + tx.amount := by
  subst hd
  have hsum : expenseSum (s.transactions ++ [tx]) tx.date
      = expenseSum s.transactions tx.date + tx.amount := by
    rw [expenseSum_append, if_pos ⟨rfl, hty⟩]
  refine ⟨add_transaction_transactions s tx.date tx, ?_, ?_, ?_, hsum⟩
  · by_cases hex : budgetExists s tx.date = true
    · rw [show budgetExists (add_transaction s tx.date tx) tx.date
            = (add_transaction s tx.date tx).daily_budgets.any
                (fun b => decide (b.date = tx.date)) from rfl,
        add_transaction_budgets_expense_exists s tx.date tx hty rfl hex]
      rcases (budgetExists_iff s tx.date).mp hex with ⟨b0, hb0, hb0d⟩
      apply List.any_eq_true.mpr
      refine ⟨_, List.mem_map_of_mem _ hb0, ?_⟩
      rw [if_pos hb0d]
      simpa using hb0d
    · have hex' : budgetExists s tx.date = false := Bool.eq_false_iff.mpr hex
      rw [show budgetExists (add_transaction s tx.date tx) tx.date
            = (add_transaction s tx.date tx).daily_budgets.any
                (fun b => decide (b.date = tx.date)) from rfl,
        add_transaction_budgets_expense_missing s tx.date tx hty rfl hex']
      apply List.any_eq_true.mpr
      refine ⟨_, List.mem_map_of_mem _ (List.mem_append_right _ (List.mem_singleton.mpr rfl)), ?_⟩
      rw [if_pos rfl]
      simp
  · intro hex'
    rw [add_transaction_budgets_expense_missing s tx.date tx hty rfl hex',
      List.map_append]
    congr 1
    · have hall : ∀ b ∈ s.daily_budgets,
          (if b.date = tx.date then
            { b with actual_spent := expenseSum (s.transactions ++ [tx]) tx.date }
          else b) = b := by
        intro b hbmem
        rw [if_neg ((budgetExists_eq_false s tx.date).mp hex' b hbmem)]
      rw [List.map_congr_left hall]
      exact List.map_id s.daily_budgets
    · rw [List.map_singleton, if_pos rfl]
  · intro hbmem hbd
    by_cases hex : budgetExists s tx.date = true
    · rw [add_transaction_budgets_expense_exists s tx.date tx hty rfl hex] at hbmem
      rcases List.mem_map.mp hbmem with ⟨b0, hb0, hfb0⟩
      by_cases h0 : b0.date = tx.date
      · rw [if_pos h0] at hfb0
        rw [← hfb0]
      · rw [if_neg h0] at hfb0
        exact absurd (hfb0 ▸ hbd) h0
    · have hex' : budgetExists s tx.date = false := Bool.eq_false_iff.mpr hex
      rw [add_transaction_budgets_expense_missing s tx.date tx hty rfl hex'] at hbmem
      rcases List.mem_map.mp hbmem with ⟨b0, hb0, hfb0⟩
      by_cases h0 : b0.date = tx.date
      · rw [if_pos h0] at hfb0
        rw [← hfb0]
      · rw [if_neg h0] at hfb0
        exact absurd (hfb0 ▸ hbd) h0

/-- C5 witness: recording a 7.00 expense on day 0 into the empty store
appends it, creates the day-0 row (allocated limit 0 — no pay period — and
`actual_spent` 700 cents), and the recorded sum is 0 + 700. -/
theorem C5_record_expense_today_witness :
    (add_transaction State.empty 0 wC5tx).transactions
      = State.empty.transactions ++ [wC5tx] ∧
    budgetExists (add_transaction State.empty 0 wC5tx) 0 = true ∧
    (add_transaction State.empty 0 wC5tx).daily_budgets =
      State.empty.daily_budgets ++
        [⟨0, calculate_daily_limit State.empty 0,
          none, expenseSum (State.empty.transactions ++ [wC5tx]) 0⟩] ∧
    (⟨0, 0, none, 700⟩ : DailyBudget).actual_spent
      = expenseSum (State.empty.transactions ++ [wC5tx]) 0 ∧
    expenseSum (State.empty.transactions ++ [wC5tx]) 0
      = expenseSum State.empty.transactions 0 + wC5tx.amount :=
  ⟨(C5_record_expense_today State.empty 0 wC5tx ⟨0, 0, none, 700⟩ rfl rfl).1,
   (C5_record_expense_today State.empty 0 wC5tx ⟨0, 0, none, 700⟩ rfl rfl).2.1,
   (C5_record_expense_today State.empty 0 wC5tx ⟨0, 0, none, 700⟩ rfl rfl).2.2.1 (by decide),
   (C5_record_expense_today State.empty 0 wC5tx ⟨0, 0, none, 700⟩ rfl rfl).2.2.2.1
     (by decide) rfl,
   (C5_record_expense_today State.empty 0 wC5tx ⟨0, 0, none, 700⟩ rfl rfl).2.2.2.2⟩

/-- C6: `confirm_daily_limit` leaves a budget row for today whose
`confirmed_limit` is the requested amount; an existing row has only its
`confirmed_limit` changed (so reconfirming keeps only the latest value and
`allocated_limit` is untouched); a missing row is created with
`allocated_limit = confirmed_limit = amount`; no other table changes. -/
theorem C6_confirm_frame (s : State) (today a : ℤ) :
    ((findBudget (confirm_daily_limit s today (some a)) today).map
        (fun b => b.confirmed_limit)) = some (some a) ∧
    budgetExists (confirm_daily_limit s today (some a)) today = true ∧
    (budgetExists s today = true →
      (confirm_daily_limit s today (some a)).daily_budgets =
        s.daily_budgets.map (fun b =>
          if b.date = today then { b with confirmed_limit := some a } else b)) ∧
    (budgetExists s today = false →
      (confirm_daily_limit s today (some a)).daily_budgets =
        s.daily_budgets ++ [⟨today, a, some a, 0⟩]) ∧
    (confirm_daily_limit s today (some a)).pay_periods = s.pay_periods ∧
    (confirm_daily_limit s today (some a)).transactions = s.transactions ∧
    (confirm_daily_limit s today (some a)).recurring_expenses = s.recurring_expenses ∧
    (confirm_daily_limit s today (some a)).savings_goals = s.savings_goals :=
  confirm_daily_limit_spec s today (some a)

/-- C6 witness: confirming 15.00 on day 2 of the empty store creates the row
⟨2, 1500, some 1500, 0⟩ and reports confirmed limit 1500 cents. -/
theorem C6_confirm_frame_witness :
    ((findBudget (confirm_daily_limit State.empty 2 (some 1500)) 2).map
        (fun b => b.confirmed_limit)) = some (some 1500) ∧
    (confirm_daily_limit State.empty 2 (some 1500)).daily_budgets =
      State.empty.daily_budgets ++ [⟨2, 1500, some 1500, 0⟩] :=
  ⟨(C6_confirm_frame State.empty 2 1500).1,
   (C6_confirm_frame State.empty 2 1500).2.2.2.1 (by decide)⟩

/-- C7: a savings contribution is always appended to the log and touches no
budget row; when a goal id is supplied the matching goals get the amount
added to `current_amount`; with no goal id, or an id matching no goal, no
goal changes — and no error is raised (the operation is total). -/
theorem C7_contribution_goal_update (s : State) (today : ℤ) (tx : Transaction)
    (gid : ℕ)
    (hty : tx.transaction_type = TransactionType.savings_contribution) :
    (add_transaction s today tx).transactions = s.transactions ++ [tx] ∧
    (add_transaction s today tx).daily_budgets = s.daily_budgets ∧
    (tx.goal_id = none →
      (add_transaction s today tx).savings_goals = s.savings_goals) ∧
    (tx.goal_id = some gid →
      (add_transaction s today tx).savings_goals =
        s.savings_goals.map (fun g =>
          if g.id = gid then { g with current_amount := g.current_amount + tx.amount }
          else g)) ∧
    (tx.goal_id = some gid → gid ∉ s.savings_goals.map (fun g => g.id) →
      (add_transaction s today tx).savings_goals = s.savings_goals) := by
  have hne : ¬(tx.transaction_type = TransactionType.expense ∧ tx.date = today) :=
    fun hc => by rw [hty] at hc; exact TransactionType.noConfusion hc.1
  have hgoals := add_transaction_goals_of_contribution s today tx hty
  refine ⟨add_transaction_transactions s today tx,
    add_transaction_budgets_of_not_expense_today s today tx hne, ?_, ?_, ?_⟩
  · intro hg
    rw [hgoals, hg]
  · intro hg
    rw [hgoals, hg]
  · intro hg hnot
    rw [hgoals, hg]
    dsimp only
    have hall : ∀ g ∈ s.savings_goals,
        (if g.id = gid then { g with current_amount := g.current_amount + tx.amount }
          else g) = g := by
      intro g hgmem
      rw [if_neg (fun hid => hnot (by rw [← hid]; exact List.mem_map_of_mem _ hgmem))]
    have hall' : ∀ g ∈ s.savings_goals,
        (if g.id = gid then { g with current_amount := g.current_amount + tx.amount }
          else g) = id g := hall
    exact (List.map_congr_left hall').trans (List.map_id s.savings_goals)

/-- C7 witness: contributing 5.00 to existing goal 1 raises its
`current_amount` by 500 cents; contributing toward the nonexistent goal 9
changes no goal. -/
theorem C7_contribution_goal_update_witness :
    (add_transaction wC7state 0 wC7tx).savings_goals =
      wC7state.savings_goals.map (fun g =>
        if g.id = 1 then { g with current_amount := g.current_amount + wC7tx.amount }
        else g) ∧
    (add_transaction wC7state 0 wC7txMissing).savings_goals = wC7state.savings_goals :=
  ⟨(C7_contribution_goal_update wC7state 0 wC7tx 1 rfl).2.2.2.1 rfl,
   (C7_contribution_goal_update wC7state 0 wC7txMissing 9 rfl).2.2.2.2 rfl (by decide)⟩

/-- C10: a confirm request whose body omits the limit proceeds with limit 0:
it acts exactly like confirming 0, and today's row ends up with
`confirmed_limit` 0 (and `allocated_limit` 0 when newly created). -/
theorem C10_missing_limit_defaults_to_zero (s : State) (today : ℤ) :
    confirm_daily_limit s today none = confirm_daily_limit s today (some 0) ∧
    ((findBudget (confirm_daily_limit s today none) today).map
        (fun b => b.confirmed_limit)) = some (some 0) ∧
    (budgetExists s today = false →
      (confirm_daily_limit s today none).daily_budgets =
        s.daily_budgets ++ [⟨today, 0, some 0, 0⟩]) :=
  ⟨rfl, (confirm_daily_limit_spec s today none).1,
   (confirm_daily_limit_spec s today none).2.2.2.1⟩

/-- C10 witness: the omitted-limit confirm on the empty store on day 4
creates the row ⟨4, 0, some 0, 0⟩. -/
theorem C10_missing_limit_witness :
    ((findBudget (confirm_daily_limit State.empty 4 none) 4).map
        (fun b => b.confirmed_limit)) = some (some 0) ∧
    (confirm_daily_limit State.empty 4 none).daily_budgets =
      State.empty.daily_budgets ++ [⟨4, 0, some 0, 0⟩] :=
  ⟨(C10_missing_limit_defaults_to_zero State.empty 4).2.1,
   (C10_missing_limit_defaults_to_zero State.empty 4).2.2 (by decide)⟩

/-- C9: the `frequency` field of recurring expenses has no effect on the
suggested limit: rewriting every frequency arbitrarily leaves
`calculate_daily_limit` unchanged — each bill due in the window is counted
exactly once, never once per occurrence. -/
theorem C9_frequency_no_effect (s : State) (today : ℤ)
    (f : RecurringExpense → Frequency) :
    calculate_daily_limit
      { s with recurring_expenses :=
          s.recurring_expenses.map (fun e => { e with frequency := f e }) }
      today = calculate_daily_limit s today := by
  unfold calculate_daily_limit
  dsimp only
  cases hsel : selectPeriod s.pay_periods today with
  | none => rfl
  | some p =>
    dsimp only
    rw [upcomingBills_map_frequency]
